import Mathlib

set_option linter.unusedVariables false

/-!
Shallow embedding of the terminal-driver layer of automate-terminal
(src/automate_terminal/terminals/base.py, tmux.py, vscode.py).

External collaborators are modelled as oracles: a command-execution
environment mapping an argument vector to an exit code plus captured
output, a filesystem path-normalization function, and an OS-scripting
executor mapping a script body to a string result.  Every driver
operation is embedded as a pure function returning its result together
with the ordered trace of external calls it issued, so that
call-sequence, early-exit and dry-run properties can be stated exactly.
-/

/-- Result of one external command invocation: exit code and captured
standard output (stderr is never inspected by the driver code). -/
structure CmdResult where
  returncode : Int
  stdout : String
deriving DecidableEq, Repr

/-- One external call issued by a driver operation: a read-only query or
a mutating (read-write) command, each carrying its argument vector. -/
inductive ExtCall where
  | read : List String → ExtCall
  | write : List String → ExtCall
deriving DecidableEq, Repr

/-- The command-execution collaborator: what each argument vector would
return if issued. -/
def Oracle : Type := List String → CmdResult

/-- Python truthiness of an optional string value (None and the empty
string are both falsy); used for the `if session_init_script:` and
`if not current_pane:` tests in the source. -/
def truthy : Option String → Bool
  | none => false
  | some s => s != ""

/-- Python str whitespace test for strip (space, tab, newline, carriage
return, vertical tab, form feed). -/
def pyIsSpace (c : Char) : Bool :=
  c == ' ' || c == '\t' || c == '\n' || c == '\r' || c == '\x0b' || c == '\x0c'

/-- Python str.strip(): remove leading and trailing whitespace. -/
def pyStrip (s : String) : String :=
  String.mk ((s.data.dropWhile pyIsSpace).reverse.dropWhile pyIsSpace).reverse

/-- Split a character list on every occurrence of a separator character;
the shape Python str.split gives for a one-character separator (an empty
input yields one empty field, separators are never collapsed). -/
def splitChars (sep : Char) : List Char → List (List Char)
  | [] => [[]]
  | c :: rest =>
    match splitChars sep rest with
    | [] => [[]]
    | h :: t => if c == sep then [] :: h :: t else (c :: h) :: t

/-- Python str.split(sep) for a one-character separator. -/
def pySplit (sep : Char) (s : String) : List String :=
  (splitChars sep s.data).map String.mk

/-- Python str.split(sep, 1) for a one-character separator: the part
before the first occurrence, and the rest when the separator occurs. -/
def splitOnceChars (sep : Char) : List Char → List Char × Option (List Char)
  | [] => ([], none)
  | c :: rest =>
    if c == sep then ([], some rest)
    else
      let r := splitOnceChars sep rest
      (c :: r.1, r.2)

/-- Python membership test of a single character in a string. -/
def pyContainsChar (sep : Char) (s : String) : Bool :=
  s.data.any (fun c => c == sep)

/-- Whether the first character list starts with the second. -/
def charsStartWith : List Char → List Char → Bool
  | _, [] => true
  | [], _ :: _ => false
  | c :: cs, p :: ps => c == p && charsStartWith cs ps

/-- Python str.startswith. -/
def pyStartsWith (s pre : String) : Bool :=
  charsStartWith s.data pre.data

/-- Modelled from the spec: the read-only command executor
(run_command_r in automate_terminal.utils, which is not under src/).
Per section 6, given an argument vector it returns exit code and captured
output; it never mutates host state and always executes, also under
dry-run (section 5: read-only queries always execute). -/
def run_command_r (env : Oracle) (argv : List String) : CmdResult × List ExtCall :=
  (env argv, [ExtCall.read argv])

/-- Modelled from the spec: the read-write command executor
(run_command_rw in automate_terminal.utils, which is not under src/).
Per section 6, given an argument vector and a dry-run flag it performs
the action unless dry-run is set, in which case it performs no external
effect but returns a success-shaped result. -/
def run_command_rw (env : Oracle) (dry_run : Bool) (argv : List String) :
    CmdResult × List ExtCall :=
  if dry_run then ({ returncode := 0, stdout := "" }, [])
  else (env argv, [ExtCall.write argv])

/-- One parsed session record: pane token and its current working
directory (tmux.py list_sessions builds dicts with exactly these keys). -/
structure Session where
  session_id : String
  working_directory : String
deriving DecidableEq, Repr

/-- The eight capability flags of the Capabilities record
(automate_terminal.models, consumed by base.py get_capabilities). -/
structure Capabilities where
  can_create_tabs : Bool
  can_create_windows : Bool
  can_list_sessions : Bool
  can_switch_to_session : Bool
  can_detect_session_id : Bool
  can_detect_working_directory : Bool
  can_paste_commands : Bool
  can_run_in_active_session : Bool
deriving DecidableEq, Repr

/-- The eight private capability predicates a driver may override
(base.py lines 131-161); a driver is modelled by the values its
predicates return. -/
structure CapabilityPredicates where
  can_create_tabs : Bool
  can_create_windows : Bool
  can_list_sessions : Bool
  can_switch_to_session : Bool
  can_detect_session_id : Bool
  can_detect_working_directory : Bool
  can_paste_commands : Bool
  can_run_in_active_session : Bool
deriving DecidableEq, Repr

/-- BaseTerminal.get_capabilities: builds the Capabilities record by
calling the eight predicates (base.py lines 118-129). -/
def get_capabilities (p : CapabilityPredicates) : Capabilities :=
  { can_create_tabs := p.can_create_tabs
    can_create_windows := p.can_create_windows
    can_list_sessions := p.can_list_sessions
    can_switch_to_session := p.can_switch_to_session
    can_detect_session_id := p.can_detect_session_id
    can_detect_working_directory := p.can_detect_working_directory
    can_paste_commands := p.can_paste_commands
    can_run_in_active_session := p.can_run_in_active_session }

/-- The BaseTerminal defaults: every capability predicate returns False
(base.py lines 131-161), so a driver that overrides none of them is
modelled by this record. -/
def base_capability_predicates : CapabilityPredicates :=
  { can_create_tabs := false
    can_create_windows := false
    can_list_sessions := false
    can_switch_to_session := false
    can_detect_session_id := false
    can_detect_working_directory := false
    can_paste_commands := false
    can_run_in_active_session := false }

/-- TmuxTerminal overrides all eight predicates to return True
(tmux.py lines 366-396). -/
def tmux_capability_predicates : CapabilityPredicates :=
  { can_create_tabs := true
    can_create_windows := true
    can_list_sessions := true
    can_switch_to_session := true
    can_detect_session_id := true
    can_detect_working_directory := true
    can_paste_commands := true
    can_run_in_active_session := true }

namespace TmuxTerminal

/-- TmuxTerminal.session_exists (tmux.py lines 66-92): empty id is
rejected before any call; otherwise one read-only listing call, whose
trimmed lines are compared against the id. -/
def session_exists (env : Oracle) (session_id : String) : Bool × List ExtCall :=
  if session_id == "" then (false, [])
  else
    let argv := ["tmux", "list-panes", "-a", "-F", "#\x7bpane_id\x7d"]
    let result := (run_command_r env argv).1
    let trace := (run_command_r env argv).2
    if result.returncode == 0 && result.stdout != "" then
      let pane_ids := (pySplit '\n' (pyStrip result.stdout)).map pyStrip
      (pane_ids.contains session_id, trace)
    else (false, trace)

/-- TmuxTerminal.session_in_directory (tmux.py lines 94-128): empty id
rejected; otherwise one read-only display-message query, and the trimmed
pane path is compared verbatim against the rendering of the given
directory (the source does str(directory) with no resolve call on
either side). -/
def session_in_directory (env : Oracle) (session_id : String) (directory : String) :
    Bool × List ExtCall :=
  if session_id == "" then (false, [])
  else
    let argv := ["tmux", "display-message", "-p", "-t", session_id, "-F",
      "#\x7bpane_current_path\x7d"]
    let result := (run_command_r env argv).1
    let trace := (run_command_r env argv).2
    if result.returncode == 0 && result.stdout != "" then
      (pyStrip result.stdout == directory, trace)
    else (false, trace)

/-- TmuxTerminal.switch_to_session (tmux.py lines 130-207): window query
(read-only), then select-window, select-pane and, when a truthy init
script is supplied, send-keys to the target pane, each via the
read-write executor, aborting on the first failure. -/
def switch_to_session (env : Oracle) (dry_run : Bool) (session_id : String)
    (session_init_script : Option String) : Bool × List ExtCall :=
  let qargv := ["tmux", "display-message", "-p", "-t", session_id, "-F",
    "#\x7bwindow_id\x7d"]
  let window_result := (run_command_r env qargv).1
  let t0 := (run_command_r env qargv).2
  if window_result.returncode != 0 then (false, t0)
  else
    let window_id := pyStrip window_result.stdout
    let swargv := ["tmux", "select-window", "-t", window_id]
    let select_window_result := (run_command_rw env dry_run swargv).1
    let t1 := t0 ++ (run_command_rw env dry_run swargv).2
    if select_window_result.returncode != 0 then (false, t1)
    else
      let spargv := ["tmux", "select-pane", "-t", session_id]
      let result := (run_command_rw env dry_run spargv).1
      let t2 := t1 ++ (run_command_rw env dry_run spargv).2
      if result.returncode != 0 then (false, t2)
      else if truthy session_init_script then
        let skargv := ["tmux", "send-keys", "-t", session_id,
          session_init_script.getD "", "Enter"]
        let send_result := (run_command_rw env dry_run skargv).1
        (send_result.returncode == 0, t2 ++ (run_command_rw env dry_run skargv).2)
      else (true, t2)

/-- TmuxTerminal.open_new_tab (tmux.py lines 209-241): one read-write
new-window call; a truthy init script is appended to the same argument
vector (single call, never two). -/
def open_new_tab (env : Oracle) (dry_run : Bool) (working_directory : String)
    (session_init_script : Option String) : Bool × List ExtCall :=
  let cmd := ["tmux", "new-window", "-c", working_directory] ++
    (if truthy session_init_script then [session_init_script.getD ""] else [])
  ((run_command_rw env dry_run cmd).1.returncode == 0, (run_command_rw env dry_run cmd).2)

/-- TmuxTerminal.open_new_window (tmux.py lines 243-298): phase 1 creates
a detached session (read-write); on failure, return false with no further
call.  When a truthy init script is supplied, phase 2 queries the current
session id (read-only) and, only if that query returns exit code 0 and
nonempty output, sends the keys (read-write, result ignored); the
operation returns true whenever phase 1 succeeded. -/
def open_new_window (env : Oracle) (dry_run : Bool) (working_directory : String)
    (session_init_script : Option String) : Bool × List ExtCall :=
  let cmd := ["tmux", "new-session", "-d", "-c", working_directory]
  let result := (run_command_rw env dry_run cmd).1
  let t0 := (run_command_rw env dry_run cmd).2
  if result.returncode != 0 then (false, t0)
  else if truthy session_init_script then
    let qargv := ["tmux", "display-message", "-p", "-t", "#\x7bsession_id\x7d"]
    let session_result := (run_command_r env qargv).1
    let t1 := t0 ++ (run_command_r env qargv).2
    if session_result.returncode == 0 && session_result.stdout != "" then
      let session_id := pyStrip session_result.stdout
      let skargv := ["tmux", "send-keys", "-t", session_id,
        session_init_script.getD "", "Enter"]
      (true, t1 ++ (run_command_rw env dry_run skargv).2)
    else (true, t1)
  else (true, t0)

/-- One line of the pane listing (tmux.py lines 318-327): trimmed, kept
only if nonempty and containing the delimiter, split on the FIRST pipe
only (Python split with maxsplit 1), both fields trimmed. -/
def parseLine (line : String) : Option Session :=
  let line := pyStrip line
  if line != "" && pyContainsChar '|' line then
    match splitOnceChars '|' line.data with
    | (_, none) => none
    | (pane_id, some path) =>
      some { session_id := pyStrip (String.mk pane_id)
             working_directory := pyStrip (String.mk path) }
  else none

/-- TmuxTerminal.list_sessions (tmux.py lines 300-334): one read-only
listing call; on failure or empty output, the empty list; otherwise the
parsed records in listing order. -/
def list_sessions (env : Oracle) : List Session × List ExtCall :=
  let argv := ["tmux", "list-panes", "-a", "-F",
    "#\x7bpane_id\x7d|#\x7bpane_current_path\x7d"]
  let result := (run_command_r env argv).1
  let trace := (run_command_r env argv).2
  if result.returncode != 0 || result.stdout == "" then ([], trace)
  else ((pySplit '\n' (pyStrip result.stdout)).filterMap parseLine, trace)

/-- First pass of find_session_by_working_directory (tmux.py lines
352-355): first session whose resolved path equals the resolved target. -/
def findExact (resolve : String → String) (target : String) :
    List Session → Option String
  | [] => none
  | s :: rest =>
    if resolve s.working_directory == target then some s.session_id
    else findExact resolve target rest

/-- Second pass of find_session_by_working_directory (tmux.py lines
358-362): first session whose resolved path starts with the resolved
target followed by a path separator. -/
def findSub (resolve : String → String) (target : String) :
    List Session → Option String
  | [] => none
  | s :: rest =>
    if pyStartsWith (resolve s.working_directory) (target ++ "/") then some s.session_id
    else findSub resolve target rest

/-- TmuxTerminal.find_session_by_working_directory (tmux.py lines
336-364): list sessions, normalize the target via Path.resolve
(modelled by the resolve oracle), exact pass first, subdirectory pass
only when permitted and the exact pass found nothing. -/
def find_session_by_working_directory (env : Oracle) (resolve : String → String)
    (target_path : String) (subdirectory_ok : Bool) : Option String × List ExtCall :=
  let sessions := (list_sessions env).1
  let trace := (list_sessions env).2
  let target := resolve target_path
  match findExact resolve target sessions with
  | some sid => (some sid, trace)
  | none =>
    if subdirectory_ok then (findSub resolve target sessions, trace)
    else (none, trace)

/-- TmuxTerminal.run_in_active_session (tmux.py lines 398-426): the
current pane comes from the TMUX_PANE marker (modelled as a parameter);
if falsy, fail with no call, else one read-write send-keys call. -/
def run_in_active_session (env : Oracle) (dry_run : Bool)
    (tmux_pane : Option String) (command : String) : Bool × List ExtCall :=
  if !truthy tmux_pane then (false, [])
  else
    let pane := tmux_pane.getD ""
    let argv := ["tmux", "send-keys", "-t", pane, command, "Enter"]
    ((run_command_rw env dry_run argv).1.returncode == 0,
     (run_command_rw env dry_run argv).2)

end TmuxTerminal

/-- The two editor products the VSCode driver can be configured for
(vscode.py line 16). -/
inductive VSCodeVariant where
  | vscode
  | cursor
deriving DecidableEq, Repr

/-- External world seen by the editor driver: the AppleScript service
platform flag and executor, the filesystem (existence and Path.resolve),
the launcher lookup (shutil.which) and the generic command runner. -/
structure VSCodeEnv where
  is_macos : Bool
  path_exists : String → Bool
  resolve : String → String
  applescript : String → String
  which : String → Bool
  run : List String → CmdResult

namespace VSCodeTerminal

/-- VSCodeTerminal.cli_command (vscode.py lines 36-39). -/
def cli_command : VSCodeVariant → String
  | .vscode => "code"
  | .cursor => "cursor"

/-- VSCodeTerminal.app_names (vscode.py lines 41-47). -/
def app_names : VSCodeVariant → List String
  | .vscode => ["Code", "Visual Studio Code"]
  | .cursor => ["Cursor"]

/-- VSCodeTerminal.detect (vscode.py lines 54-66): pure in the primary
marker TERM_PROGRAM, the platform name (unused) and the secondary marker
CURSOR_TRACE_ID, whose presence is the Python truthiness of its value. -/
def detect (variant : VSCodeVariant) (term_program : Option String)
    (platform_name : String) (cursor_trace_id : Option String) : Bool :=
  if term_program != some "vscode" then false
  else
    let has_cursor_id := truthy cursor_trace_id
    match variant with
    | .vscode => !has_cursor_id
    | .cursor => has_cursor_id

/-- VSCodeTerminal.supports_session_management (vscode.py lines 76-78). -/
def supports_session_management (st : VSCodeEnv) : Bool :=
  st.is_macos

/-- Whether a byte is left unescaped by Python urllib quote with
safe set "/": ASCII letters, digits, underscore, dot, hyphen, tilde,
and the slash kept safe by the call site. -/
def isSafeByte (n : Nat) : Bool :=
  (65 ≤ n && n ≤ 90) || (97 ≤ n && n ≤ 122) || (48 ≤ n && n ≤ 57) ||
  n == 95 || n == 46 || n == 45 || n == 126 || n == 47

/-- Uppercase hex digits used by percent encoding. -/
def hexDigits : List Char :=
  ['0', '1', '2', '3', '4', '5', '6', '7', '8', '9', 'A', 'B', 'C', 'D', 'E', 'F']

/-- Percent-encode one byte value as a three-character escape. -/
def percentEncode (n : Nat) : String :=
  String.mk ['%', hexDigits.getD (n / 16 % 16) '0', hexDigits.getD (n % 16) '0']

/-- Python urllib.parse.quote with safe set "/": the string is encoded
to UTF-8 and every unsafe byte is percent-encoded. -/
def quote (s : String) : String :=
  String.join ((s.toUTF8.toList.map UInt8.toNat).map (fun n =>
    if isSafeByte n then String.singleton (Char.ofNat n) else percentEncode n))

/-- VSCodeTerminal._path_to_file_url (vscode.py lines 80-83): resolve,
then prepend the file scheme to the percent-encoded path. -/
def path_to_file_url (resolve : String → String) (path : String) : String :=
  "file://" ++ quote (resolve path)

/-- AppleScript body built by VSCodeTerminal.session_exists
(vscode.py lines 154-176) for one application process name. -/
def session_exists_script (app_name target_url : String) : String :=
  String.intercalate "\n" [
    "",
    "                tell application \"System Events\"",
    "                    if not (exists process \"" ++ app_name ++ "\") then",
    "                        return false",
    "                    end if",
    "",
    "                    tell process \"" ++ app_name ++ "\"",
    "                        set targetURL to \"" ++ target_url ++ "\"",
    "",
    "                        repeat with w in windows",
    "                            try",
    "                                set docPath to value of attribute \"AXDocument\" of w",
    "                                if docPath starts with targetURL or targetURL starts with docPath then",
    "                                    return true",
    "                                end if",
    "                            on error",
    "                                -- window has no document attribute",
    "                            end try",
    "                        end repeat",
    "                        return false",
    "                    end tell",
    "                end tell",
    "                "]

/-- AppleScript body built by VSCodeTerminal._find_window_with_path
(vscode.py lines 93-127) for one application process name. -/
def find_window_script (app_name target_url : String) : String :=
  String.intercalate "\n" [
    "",
    "            tell application \"System Events\"",
    "                if not (exists process \"" ++ app_name ++ "\") then",
    "                    return false",
    "                end if",
    "",
    "                tell process \"" ++ app_name ++ "\"",
    "                    set targetURL to \"" ++ target_url ++ "\"",
    "                    set foundWindow to missing value",
    "                    set windowIndex to 0",
    "",
    "                    repeat with w in windows",
    "                        set windowIndex to windowIndex + 1",
    "                        try",
    "                            set docPath to value of attribute \"AXDocument\" of w",
    "                            if docPath starts with targetURL or targetURL starts with docPath then",
    "                                set foundWindow to windowIndex",
    "                                exit repeat",
    "                            end if",
    "                        on error",
    "                            -- window has no document attribute",
    "                        end try",
    "                    end repeat",
    "",
    "                    if foundWindow is not missing value then",
    "                        -- Activate the window",
    "                        set frontmost to true",
    "                        click window foundWindow",
    "                        return true",
    "                    else",
    "                        return false",
    "                    end if",
    "                end tell",
    "            end tell",
    "            "]

/-- Loop of VSCodeTerminal.session_exists over the application process
names: execute each script in order, stopping at the first string result
equal to "true"; the second component records the scripts executed. -/
def session_exists_loop (st : VSCodeEnv) (target_url : String) :
    List String → Bool × List String
  | [] => (false, [])
  | app :: rest =>
    let script := session_exists_script app target_url
    if st.applescript script == "true" then (true, [script])
    else
      let r := session_exists_loop st target_url rest
      (r.1, script :: r.2)

/-- VSCodeTerminal.session_exists (vscode.py lines 138-186): gated on the
platform flag, then on filesystem existence of the workspace path, then
the per-process-name AppleScript loop. -/
def session_exists (st : VSCodeEnv) (variant : VSCodeVariant) (session_id : String) :
    Bool × List String :=
  if !st.is_macos then (false, [])
  else if !st.path_exists session_id then (false, [])
  else
    let target_url := path_to_file_url st.resolve session_id
    session_exists_loop st target_url (app_names variant)

/-- VSCodeTerminal.find_session_by_working_directory (vscode.py lines
188-197): the subdirectory flag is never consulted; the target path
itself is returned when session_exists accepts it. -/
def find_session_by_working_directory (st : VSCodeEnv) (variant : VSCodeVariant)
    (target_path : String) (subdirectory_ok : Bool) : Option String × List String :=
  let r := session_exists st variant target_path
  (if r.1 then some target_path else none, r.2)

/-- Loop of VSCodeTerminal._find_window_with_path over the application
process names, analogous to the session_exists loop. -/
def find_window_loop (st : VSCodeEnv) (target_url : String) :
    List String → Bool × List String
  | [] => (false, [])
  | app :: rest =>
    let script := find_window_script app target_url
    if st.applescript script == "true" then (true, [script])
    else
      let r := find_window_loop st target_url rest
      (r.1, script :: r.2)

/-- VSCodeTerminal._find_window_with_path (vscode.py lines 85-136). -/
def find_window_with_path (st : VSCodeEnv) (variant : VSCodeVariant)
    (workspace_path : String) : Bool × List String :=
  if !st.is_macos then (false, [])
  else find_window_loop st (path_to_file_url st.resolve workspace_path)
    (app_names variant)

/-- VSCodeTerminal.switch_to_session (vscode.py lines 199-219): gated on
the platform flag before anything else (an init script only produces a
log line), then delegates to the window search. -/
def switch_to_session (st : VSCodeEnv) (variant : VSCodeVariant)
    (session_id : String) (session_init_script : Option String) :
    Bool × List String :=
  if !st.is_macos then (false, [])
  else find_window_with_path st variant session_id

/-- VSCodeTerminal.open_new_window (vscode.py lines 230-260).  The
launcher invocation goes through run_command (automate_terminal.utils,
not under src/).  Modelled from the spec: section 6 command executors
perform the action unless a dry-run flag is passed to them, and this
call site passes only a timeout and a description — and VSCodeTerminal
holds no dry-run state at all — so the call is always issued; it is
recorded as a mutating call since it opens an editor window. -/
def open_new_window (st : VSCodeEnv) (variant : VSCodeVariant)
    (working_directory : String) (session_init_script : Option String) :
    Bool × List ExtCall :=
  if !st.which (cli_command variant) then (false, [])
  else
    let cmd := [cli_command variant, "-n", working_directory]
    (((st.run cmd).returncode == 0), [ExtCall.write cmd])

/-- VSCodeTerminal capability predicates (vscode.py lines 262-278):
_can_detect_working_directory and _can_run_in_active_session are not
overridden and keep the BaseTerminal default of False. -/
def capability_predicates (st : VSCodeEnv) : CapabilityPredicates :=
  { can_create_tabs := false
    can_create_windows := true
    can_list_sessions := false
    can_switch_to_session := st.is_macos
    can_detect_session_id := false
    can_detect_working_directory := false
    can_paste_commands := false
    can_run_in_active_session := false }

end VSCodeTerminal

/-- Written from the spec's words for the two-pass directory lookup
(refinement target, to be compared with the translation of
TmuxTerminal.find_session_by_working_directory): the first pass returns
the first listed session whose normalized path equals the normalized
target; only when no exact match exists and subdirectory matching is
permitted does a second pass return the first session whose normalized
path starts with the normalized target plus a path separator. -/
def spec_find_session_by_working_directory (resolve : String → String)
    (sessions : List Session) (target_path : String) (subdirectory_ok : Bool) :
    Option String :=
  match sessions.find? (fun s => resolve s.working_directory == resolve target_path) with
  | some s => some s.session_id
  | none =>
    if subdirectory_ok then
      (sessions.find? (fun s =>
        pyStartsWith (resolve s.working_directory) (resolve target_path ++ "/"))).map
        (fun s => s.session_id)
    else none

/-- Command oracle on which every invocation succeeds with output
containing a pane token. -/
def envAllOk : Oracle := fun _ => { returncode := 0, stdout := "%9" }

/-- Command oracle on which only the session-creation call for the
directory slash-w succeeds and every other call fails. -/
def envC2 : Oracle := fun argv =>
  if argv = ["tmux", "new-session", "-d", "-c", "/w"] then
    { returncode := 0, stdout := "" }
  else { returncode := 1, stdout := "" }

/-- Command oracle whose pane listing holds two panes, one in a sibling
directory whose name extends the target textually and one in a true
subdirectory of the target. -/
def envListing : Oracle := fun argv =>
  if argv = ["tmux", "list-panes", "-a", "-F",
      "#\x7bpane_id\x7d|#\x7bpane_current_path\x7d"] then
    { returncode := 0, stdout := "%0|/a/bc\n%1|/a/b/c\n" }
  else { returncode := 1, stdout := "" }

/-- Command oracle on which every invocation succeeds and reports a pane
path containing an unresolved parent segment. -/
def envC5 : Oracle := fun _ => { returncode := 0, stdout := "/a/x/../b" }

/-- Path normalization that removes the parent segment from the one
path the C5 scenario uses and leaves every other path unchanged. -/
def resolveC5 : String → String := fun s =>
  if s = "/a/x/../b" then "/a/b" else s

/-- Editor-driver world with the launcher available and the command
runner succeeding; the platform is not macOS. -/
def stC4 : VSCodeEnv :=
  { is_macos := false
    path_exists := fun _ => false
    resolve := fun s => s
    applescript := fun _ => ""
    which := fun _ => true
    run := fun _ => { returncode := 0, stdout := "" } }

/-- Editor-driver world on a platform without the UI-scripting facility
but with every other collaborator answering positively. -/
def stC6 : VSCodeEnv :=
  { is_macos := false
    path_exists := fun _ => true
    resolve := fun s => s
    applescript := fun _ => "true"
    which := fun _ => true
    run := fun _ => { returncode := 0, stdout := "" } }

/-- Editor-driver world on the supported platform with every
collaborator answering positively. -/
def stC10 : VSCodeEnv :=
  { is_macos := true
    path_exists := fun _ => true
    resolve := fun s => s
    applescript := fun _ => "true"
    which := fun _ => true
    run := fun _ => { returncode := 0, stdout := "" } }

/-! Helper lemmas shared by the claim theorems. -/

theorem findExact_isSome_iff (resolve : String → String) (t : String) :
    ∀ ss : List Session, (TmuxTerminal.findExact resolve t ss).isSome
      ↔ ∃ s ∈ ss, resolve s.working_directory = t := by
  intro ss
  induction ss with
  | nil => simp [TmuxTerminal.findExact]
  | cons s rest ih =>
    by_cases h : resolve s.working_directory = t
    · simp [TmuxTerminal.findExact, beq_iff_eq, h]
    · simp [TmuxTerminal.findExact, beq_iff_eq, h, ih]

theorem findExact_eq_find (resolve : String → String) (t : String) :
    ∀ ss : List Session, TmuxTerminal.findExact resolve t ss
      = (ss.find? (fun s => resolve s.working_directory == t)).map
          (fun s => s.session_id) := by
  intro ss
  induction ss with
  | nil => simp [TmuxTerminal.findExact]
  | cons s rest ih =>
    by_cases h : resolve s.working_directory = t
    · simp [TmuxTerminal.findExact, List.find?, beq_iff_eq, h]
    · have hb : (resolve s.working_directory == t) = false := by
        simp [beq_iff_eq, h]
      simp [TmuxTerminal.findExact, List.find?, hb, ih]

theorem findSub_eq_find (resolve : String → String) (t : String) :
    ∀ ss : List Session, TmuxTerminal.findSub resolve t ss
      = (ss.find? (fun s => pyStartsWith (resolve s.working_directory) (t ++ "/"))).map
          (fun s => s.session_id) := by
  intro ss
  induction ss with
  | nil => simp [TmuxTerminal.findSub]
  | cons s rest ih =>
    by_cases h : pyStartsWith (resolve s.working_directory) (t ++ "/") = true
    · simp [TmuxTerminal.findSub, List.find?, h]
    · simp [TmuxTerminal.findSub, List.find?, h, ih]

theorem findExact_mem (resolve : String → String) (t : String) :
    ∀ ss : List Session, ∀ sid, TmuxTerminal.findExact resolve t ss = some sid →
      ∃ s ∈ ss, s.session_id = sid ∧ resolve s.working_directory = t := by
  intro ss
  induction ss with
  | nil => intro sid h; simp [TmuxTerminal.findExact] at h
  | cons s rest ih =>
    intro sid h
    by_cases hc : resolve s.working_directory = t
    · simp [TmuxTerminal.findExact, beq_iff_eq, hc] at h
      exact ⟨s, by simp, h, hc⟩
    · simp [TmuxTerminal.findExact, beq_iff_eq, hc] at h
      obtain ⟨s2, hmem, hid, hwd⟩ := ih sid h
      exact ⟨s2, by simp [hmem], hid, hwd⟩

theorem findSub_mem (resolve : String → String) (t : String) :
    ∀ ss : List Session, ∀ sid, TmuxTerminal.findSub resolve t ss = some sid →
      ∃ s ∈ ss, s.session_id = sid ∧
        pyStartsWith (resolve s.working_directory) (t ++ "/") := by
  intro ss
  induction ss with
  | nil => intro sid h; simp [TmuxTerminal.findSub] at h
  | cons s rest ih =>
    intro sid h
    by_cases hc : pyStartsWith (resolve s.working_directory) (t ++ "/") = true
    · simp [TmuxTerminal.findSub, hc] at h
      exact ⟨s, by simp, h, hc⟩
    · simp [TmuxTerminal.findSub, hc] at h
      obtain ⟨s2, hmem, hid, hwd⟩ := ih sid h
      exact ⟨s2, by simp [hmem], hid, hwd⟩

/-! Claim theorems. -/

/-- C8: get_capabilities of a driver that overrides none of the eight
capability predicates yields all eight flags false, and get_capabilities
of the multiplexer driver yields all eight flags true. -/
theorem C8_capability_flags :
    get_capabilities base_capability_predicates =
      { can_create_tabs := false
        can_create_windows := false
        can_list_sessions := false
        can_switch_to_session := false
        can_detect_session_id := false
        can_detect_working_directory := false
        can_paste_commands := false
        can_run_in_active_session := false }
    ∧ get_capabilities tmux_capability_predicates =
      { can_create_tabs := true
        can_create_windows := true
        can_list_sessions := true
        can_switch_to_session := true
        can_detect_session_id := true
        can_detect_working_directory := true
        can_paste_commands := true
        can_run_in_active_session := true } :=
  ⟨rfl, rfl⟩

/-- C9: the editor driver's detect is a pure function of the primary and
secondary markers (the platform argument is quantified and irrelevant):
it is false whenever the primary marker differs from the shared editor
value, and when the primary marker matches, the vscode-configured
variant detects exactly when the secondary marker is absent (falsy) and
the cursor-configured variant exactly when it is present (truthy). -/
theorem C9_detect_discriminator (term_program : Option String)
    (platform_name : String) (cursor_trace_id : Option String) :
    VSCodeTerminal.detect VSCodeVariant.vscode term_program platform_name cursor_trace_id
      = ((term_program == some "vscode") && !truthy cursor_trace_id)
    ∧ VSCodeTerminal.detect VSCodeVariant.cursor term_program platform_name cursor_trace_id
      = ((term_program == some "vscode") && truthy cursor_trace_id) := by
  by_cases h : term_program = some "vscode" <;>
    simp [VSCodeTerminal.detect, h]

/-- C10: the editor driver's find_session_by_working_directory returns
the same result for both values of the subdirectory flag (the flag is
never consulted), and whenever the result is non-null it is exactly the
input target path. -/
theorem C10_find_ignores_flag (st : VSCodeEnv) (variant : VSCodeVariant)
    (target_path : String) (flag1 flag2 : Bool) :
    VSCodeTerminal.find_session_by_working_directory st variant target_path flag1
      = VSCodeTerminal.find_session_by_working_directory st variant target_path flag2
    ∧ ∀ r, (VSCodeTerminal.find_session_by_working_directory st variant
        target_path flag1).1 = some r → r = target_path := by
  refine ⟨rfl, ?_⟩
  intro r h
  unfold VSCodeTerminal.find_session_by_working_directory at h
  by_cases hb : (VSCodeTerminal.session_exists st variant target_path).1 = true
  · simp [hb] at h
    exact h.symm
  · simp [hb] at h

/-- Witness for C10 at a concrete editor world where the window search
succeeds: the lookup returns the target path itself. -/
theorem C10_witness :
    (VSCodeTerminal.find_session_by_working_directory stC10
      VSCodeVariant.vscode "/w" true).1 = some "/w"
    ∧ "/w" = "/w" :=
  ⟨rfl, (C10_find_ignores_flag stC10 VSCodeVariant.vscode "/w" true false).2 "/w" rfl⟩

/-- C6: on a platform without the UI-scripting facility, every
session-management operation of the editor driver returns the
negative/empty result with an empty OS-scripting call trace, for every
input. -/
theorem C6_platform_gate (st : VSCodeEnv) (variant : VSCodeVariant)
    (session_id target_path : String) (subdirectory_ok : Bool)
    (script : Option String) (h : st.is_macos = false) :
    VSCodeTerminal.session_exists st variant session_id = (false, [])
    ∧ VSCodeTerminal.find_session_by_working_directory st variant target_path
        subdirectory_ok = (none, [])
    ∧ VSCodeTerminal.switch_to_session st variant session_id script = (false, [])
    ∧ VSCodeTerminal.supports_session_management st = false := by
  refine ⟨?_, ?_, ?_, ?_⟩ <;>
    simp [VSCodeTerminal.session_exists,
      VSCodeTerminal.find_session_by_working_directory,
      VSCodeTerminal.switch_to_session,
      VSCodeTerminal.supports_session_management, h]

/-- Witness for C6 at a concrete non-macOS editor world whose other
collaborators would all answer positively. -/
theorem C6_witness :
    stC6.is_macos = false
    ∧ VSCodeTerminal.session_exists stC6 VSCodeVariant.vscode "/w" = (false, [])
    ∧ VSCodeTerminal.find_session_by_working_directory stC6 VSCodeVariant.vscode
        "/w" true = (none, [])
    ∧ VSCodeTerminal.switch_to_session stC6 VSCodeVariant.vscode "/w"
        (some "ls") = (false, [])
    ∧ VSCodeTerminal.supports_session_management stC6 = false := by
  have h := C6_platform_gate stC6 VSCodeVariant.vscode "/w" "/w" true (some "ls") rfl
  exact ⟨rfl, h.1, h.2.1, h.2.2.1, h.2.2.2⟩

/-- C1: with dry-run off, switch_to_session issues its external calls in
the strict order window-identifier query, window-select, pane-select,
then (only when a truthy init script was supplied) a key-send addressed
to the target pane; the trace stops at the first failing step, so
nothing past the identifier query is issued when that query failed and
the pane-select is never issued when the window-select failed; and the
operation returns true iff every step it performed succeeded, including
the final key-send when a script was supplied. -/
theorem C1_switch_protocol (env : Oracle) (session_id : String)
    (script : Option String) :
    (TmuxTerminal.switch_to_session env false session_id script).2
      = ExtCall.read ["tmux", "display-message", "-p", "-t", session_id, "-F",
          "#\x7bwindow_id\x7d"]
        :: (if (env ["tmux", "display-message", "-p", "-t", session_id, "-F",
              "#\x7bwindow_id\x7d"]).returncode = 0 then
            ExtCall.write ["tmux", "select-window", "-t",
              pyStrip ((env ["tmux", "display-message", "-p", "-t", session_id, "-F",
                "#\x7bwindow_id\x7d"]).stdout)]
            :: (if (env ["tmux", "select-window", "-t",
                  pyStrip ((env ["tmux", "display-message", "-p", "-t", session_id, "-F",
                    "#\x7bwindow_id\x7d"]).stdout)]).returncode = 0 then
                ExtCall.write ["tmux", "select-pane", "-t", session_id]
                :: (if (env ["tmux", "select-pane", "-t",
                      session_id]).returncode = 0 ∧ truthy script = true then
                    [ExtCall.write ["tmux", "send-keys", "-t", session_id,
                      script.getD "", "Enter"]]
                  else [])
              else [])
          else [])
    ∧ ((TmuxTerminal.switch_to_session env false session_id script).1 = true ↔
        ((env ["tmux", "display-message", "-p", "-t", session_id, "-F",
            "#\x7bwindow_id\x7d"]).returncode = 0
         ∧ (env ["tmux", "select-window", "-t",
             pyStrip ((env ["tmux", "display-message", "-p", "-t", session_id, "-F",
               "#\x7bwindow_id\x7d"]).stdout)]).returncode = 0
         ∧ (env ["tmux", "select-pane", "-t", session_id]).returncode = 0
         ∧ (truthy script = true →
             (env ["tmux", "send-keys", "-t", session_id, script.getD "",
               "Enter"]).returncode = 0))) := by
  by_cases h1 : (env ["tmux", "display-message", "-p", "-t", session_id, "-F",
      "#\x7bwindow_id\x7d"]).returncode = 0
  · by_cases h2 : (env ["tmux", "select-window", "-t",
        pyStrip ((env ["tmux", "display-message", "-p", "-t", session_id, "-F",
          "#\x7bwindow_id\x7d"]).stdout)]).returncode = 0
    · by_cases h3 : (env ["tmux", "select-pane", "-t", session_id]).returncode = 0
      · by_cases hs : truthy script = true
        · constructor
          · simp [TmuxTerminal.switch_to_session, run_command_r, run_command_rw,
              h1, h2, h3, hs]
          · simp [TmuxTerminal.switch_to_session, run_command_r, run_command_rw,
              h1, h2, h3, hs, beq_iff_eq]
        · constructor
          · simp [TmuxTerminal.switch_to_session, run_command_r, run_command_rw,
              h1, h2, h3, hs]
          · simp [TmuxTerminal.switch_to_session, run_command_r, run_command_rw,
              h1, h2, h3, hs]
      · constructor
        · simp [TmuxTerminal.switch_to_session, run_command_r, run_command_rw,
            h1, h2, h3]
        · simp [TmuxTerminal.switch_to_session, run_command_r, run_command_rw,
            h1, h2, h3]
    · constructor
      · simp [TmuxTerminal.switch_to_session, run_command_r, run_command_rw,
          h1, h2]
      · simp [TmuxTerminal.switch_to_session, run_command_r, run_command_rw,
          h1, h2]
  · constructor
    · simp [TmuxTerminal.switch_to_session, run_command_r, run_command_rw, h1]
    · simp [TmuxTerminal.switch_to_session, run_command_r, run_command_rw, h1]

/-- C2: with dry-run off, open_new_window is two-phase: it reports
success exactly when the session-creation call succeeded; when creation
fails the trace is the single creation call (phase 2 never runs); and
when creation succeeds, a truthy script was supplied, and the
session-identifier query fails, the trace is exactly the creation call
followed by the identifier query — zero key-send calls — while the
operation still reports success by the first conjunct. -/
theorem C2_open_new_window_two_phase (env : Oracle) (working_directory : String)
    (script : Option String) :
    (TmuxTerminal.open_new_window env false working_directory script).1
      = ((env ["tmux", "new-session", "-d", "-c", working_directory]).returncode == 0)
    ∧ ((env ["tmux", "new-session", "-d", "-c", working_directory]).returncode ≠ 0 →
        (TmuxTerminal.open_new_window env false working_directory script).2
          = [ExtCall.write ["tmux", "new-session", "-d", "-c", working_directory]])
    ∧ ((env ["tmux", "new-session", "-d", "-c", working_directory]).returncode = 0 →
        truthy script = true →
        (env ["tmux", "display-message", "-p", "-t",
          "#\x7bsession_id\x7d"]).returncode ≠ 0 →
        (TmuxTerminal.open_new_window env false working_directory script).2
          = [ExtCall.write ["tmux", "new-session", "-d", "-c", working_directory],
             ExtCall.read ["tmux", "display-message", "-p", "-t",
               "#\x7bsession_id\x7d"]]) := by
  by_cases h1 : (env ["tmux", "new-session", "-d", "-c",
      working_directory]).returncode = 0
  · by_cases hs : truthy script = true
    · by_cases h2 : (env ["tmux", "display-message", "-p", "-t",
          "#\x7bsession_id\x7d"]).returncode = 0
      · refine ⟨?_, fun hc => absurd h1 hc, fun _ _ hq => absurd h2 hq⟩
        by_cases h3 : (env ["tmux", "display-message", "-p", "-t",
            "#\x7bsession_id\x7d"]).stdout = ""
        · simp [TmuxTerminal.open_new_window, run_command_r, run_command_rw,
            h1, hs, h2, h3]
        · simp [TmuxTerminal.open_new_window, run_command_r, run_command_rw,
            h1, hs, h2, h3]
      · refine ⟨?_, fun hc => absurd h1 hc, fun _ _ _ => ?_⟩ <;>
          simp [TmuxTerminal.open_new_window, run_command_r, run_command_rw,
            h1, hs, h2]
    · refine ⟨?_, fun hc => absurd h1 hc, fun _ hts _ => absurd hts hs⟩
      simp [TmuxTerminal.open_new_window, run_command_r, run_command_rw, h1, hs]
  · refine ⟨?_, fun _ => ?_, fun hc _ _ => absurd hc h1⟩ <;>
      simp [TmuxTerminal.open_new_window, run_command_r, run_command_rw, h1]

/-- Witness for C2 at a concrete oracle where creation succeeds, a
script is supplied, and the identifier query fails: the operation still
reports success and the trace holds zero key-send calls. -/
theorem C2_witness :
    (TmuxTerminal.open_new_window envC2 false "/w" (some "ls")).1 = true
    ∧ (TmuxTerminal.open_new_window envC2 false "/w" (some "ls")).2
      = [ExtCall.write ["tmux", "new-session", "-d", "-c", "/w"],
         ExtCall.read ["tmux", "display-message", "-p", "-t",
           "#\x7bsession_id\x7d"]] := by
  have h := C2_open_new_window_two_phase envC2 "/w" (some "ls")
  refine ⟨?_, h.2.2 (by decide) (by decide) (by decide)⟩
  rw [h.1]
  decide

theorem spec_find_eq (resolve : String → String) (ss : List Session)
    (target : String) (sub : Bool) :
    spec_find_session_by_working_directory resolve ss target sub
      = match TmuxTerminal.findExact resolve (resolve target) ss with
        | some sid => some sid
        | none =>
          if sub then TmuxTerminal.findSub resolve (resolve target) ss else none := by
  unfold spec_find_session_by_working_directory
  rw [findExact_eq_find resolve (resolve target) ss,
    findSub_eq_find resolve (resolve target) ss]
  cases ss.find? (fun s => resolve s.working_directory == resolve target) with
  | none => simp
  | some s => simp

theorem find_fst (env : Oracle) (resolve : String → String)
    (target : String) (sub : Bool) :
    (TmuxTerminal.find_session_by_working_directory env resolve target sub).1
      = match TmuxTerminal.findExact resolve (resolve target)
          (TmuxTerminal.list_sessions env).1 with
        | some sid => some sid
        | none =>
          if sub then TmuxTerminal.findSub resolve (resolve target)
            (TmuxTerminal.list_sessions env).1
          else none := by
  unfold TmuxTerminal.find_session_by_working_directory
  cases h : TmuxTerminal.findExact resolve (resolve target)
      (TmuxTerminal.list_sessions env).1 with
  | none => cases sub <;> simp [h]
  | some sid => simp [h]

/-- C3: the lookup is the spec's two-pass algorithm over the listing —
first pass first exact normalized match, second pass (only when no exact
match exists and subdirectory matching is permitted) first session whose
normalized path starts with the normalized target plus a path separator;
in exact-match mode a session is returned iff an equal session exists;
and on a concrete listing holding a pane in the sibling directory
slash-a-slash-bc and one in slash-a-slash-b-slash-c, target
slash-a-slash-b with subdirectories permitted returns the true
subdirectory pane and exact mode returns nothing. -/
theorem C3_find_two_pass (env : Oracle) (resolve : String → String)
    (target_path : String) (subdirectory_ok : Bool) :
    (TmuxTerminal.find_session_by_working_directory env resolve target_path
        subdirectory_ok).1
      = spec_find_session_by_working_directory resolve
          (TmuxTerminal.list_sessions env).1 target_path subdirectory_ok
    ∧ ((TmuxTerminal.find_session_by_working_directory env resolve target_path
        false).1.isSome
        ↔ ∃ s ∈ (TmuxTerminal.list_sessions env).1,
            resolve s.working_directory = resolve target_path)
    ∧ (TmuxTerminal.find_session_by_working_directory envListing (fun s => s)
        "/a/b" true).1 = some "%1"
    ∧ (TmuxTerminal.find_session_by_working_directory envListing (fun s => s)
        "/a/b" false).1 = none := by
  refine ⟨?_, ?_, rfl, rfl⟩
  · rw [find_fst, spec_find_eq]
  · have hiff := findExact_isSome_iff resolve (resolve target_path)
      (TmuxTerminal.list_sessions env).1
    rw [find_fst]
    cases hE : TmuxTerminal.findExact resolve (resolve target_path)
        (TmuxTerminal.list_sessions env).1 with
    | none => simpa [hE] using hiff
    | some sid => simpa [hE] using hiff

/-- Witness for C1 at a concrete oracle on which every call succeeds:
the four calls appear in protocol order and the switch reports success. -/
theorem C1_witness :
    (TmuxTerminal.switch_to_session envAllOk false "%1" (some "ls")).1 = true
    ∧ (TmuxTerminal.switch_to_session envAllOk false "%1" (some "ls")).2
      = [ExtCall.read ["tmux", "display-message", "-p", "-t", "%1", "-F",
           "#\x7bwindow_id\x7d"],
         ExtCall.write ["tmux", "select-window", "-t", "%9"],
         ExtCall.write ["tmux", "select-pane", "-t", "%1"],
         ExtCall.write ["tmux", "send-keys", "-t", "%1", "ls", "Enter"]] := by
  have h := C1_switch_protocol envAllOk "%1" (some "ls")
  refine ⟨(h.2).mpr (by decide), ?_⟩
  rw [h.1]
  decide

/-- Witness for C3 at the concrete listing: exact-match mode finds the
pane whose path equals the target exactly. -/
theorem C3_witness :
    (TmuxTerminal.find_session_by_working_directory envListing (fun s => s)
      "/a/bc" false).1.isSome = true := by
  have h := C3_find_two_pass envListing (fun s => s) "/a/bc" false
  exact (h.2.1).mpr ⟨{ session_id := "%0", working_directory := "/a/bc" },
    by decide, rfl⟩

/-- C5 counterexample: the pane path reported by the listing and the
given directory denote the same directory under normalization (the
resolve collaborator maps both to the same string), yet
session_in_directory reports false, because the source compares the
pane's reported path verbatim against the rendering of the given
directory without resolving either side — refuting the claim that every
directory comparison of every driver operation is performed on
normalized forms. -/
theorem C5_counterexample :
    resolveC5 "/a/x/../b" = resolveC5 "/a/b"
    ∧ pyStrip (envC5 ["tmux", "display-message", "-p", "-t", "%0", "-F",
        "#\x7bpane_current_path\x7d"]).stdout = "/a/x/../b"
    ∧ (TmuxTerminal.session_in_directory envC5 "%0" "/a/b").1 = false := by
  refine ⟨?_, ?_, ?_⟩ <;> decide

/-- C5 amended: find_session_by_working_directory does compare on
normalized forms — any returned session was accepted by equality or
separator-extension of resolved paths — but session_in_directory
compares the trimmed pane path verbatim with the given directory
string, with no normalization of either side. -/
theorem C5_amended_comparisons (env : Oracle) (resolve : String → String)
    (session_id directory target_path : String) (subdirectory_ok : Bool) :
    (session_id ≠ "" →
      (TmuxTerminal.session_in_directory env session_id directory).1
        = ((env ["tmux", "display-message", "-p", "-t", session_id, "-F",
            "#\x7bpane_current_path\x7d"]).returncode == 0
          && (env ["tmux", "display-message", "-p", "-t", session_id, "-F",
            "#\x7bpane_current_path\x7d"]).stdout != ""
          && (pyStrip (env ["tmux", "display-message", "-p", "-t", session_id,
            "-F", "#\x7bpane_current_path\x7d"]).stdout == directory)))
    ∧ (∀ sid, (TmuxTerminal.find_session_by_working_directory env resolve
        target_path subdirectory_ok).1 = some sid →
        ∃ s ∈ (TmuxTerminal.list_sessions env).1, s.session_id = sid ∧
          (resolve s.working_directory = resolve target_path ∨
           pyStartsWith (resolve s.working_directory)
             (resolve target_path ++ "/") = true)) := by
  constructor
  · intro h
    have hb : (session_id == "") = false := by simp [h]
    by_cases hA : ((env ["tmux", "display-message", "-p", "-t", session_id,
        "-F", "#\x7bpane_current_path\x7d"]).returncode == 0) = true <;>
      by_cases hB : ((env ["tmux", "display-message", "-p", "-t", session_id,
          "-F", "#\x7bpane_current_path\x7d"]).stdout != "") = true <;>
        simp [TmuxTerminal.session_in_directory, run_command_r, hb, hA, hB]
  · intro sid h
    rw [find_fst] at h
    cases hE : TmuxTerminal.findExact resolve (resolve target_path)
        (TmuxTerminal.list_sessions env).1 with
    | some s0 =>
      rw [hE] at h
      simp at h
      obtain ⟨s, hmem, hid, hwd⟩ := findExact_mem resolve (resolve target_path)
        (TmuxTerminal.list_sessions env).1 s0 hE
      exact ⟨s, hmem, by rw [hid, h], Or.inl hwd⟩
    | none =>
      rw [hE] at h
      cases subdirectory_ok with
      | false => simp at h
      | true =>
        simp at h
        obtain ⟨s, hmem, hid, hwd⟩ := findSub_mem resolve (resolve target_path)
          (TmuxTerminal.list_sessions env).1 sid h
        exact ⟨s, hmem, hid, Or.inr hwd⟩

/-- Witness for the amended C5: the verbatim comparison accepts the
directory written exactly as the pane reports it, and on the concrete
listing the returned subdirectory pane satisfies the normalized
separator-extension test. -/
theorem C5_witness :
    (TmuxTerminal.session_in_directory envC5 "%0" "/a/x/../b").1 = true
    ∧ ∃ s ∈ (TmuxTerminal.list_sessions envListing).1, s.session_id = "%1" ∧
        (s.working_directory = "/a/b" ∨
         pyStartsWith s.working_directory ("/a/b" ++ "/") = true) := by
  constructor
  · rw [(C5_amended_comparisons envC5 resolveC5 "%0" "/a/x/../b" "/x" false).1
      (by decide)]
    decide
  · exact (C5_amended_comparisons envListing (fun s => s) "x" "x" "/a/b"
      true).2 "%1" (by decide)

/-- C7 counterexample: tmux switch_to_session called with the empty
identifier on an all-succeeding oracle issues external calls and even
reports success, refuting the claim that every identifier-taking driver
operation rejects an empty identifier before any external call. -/
theorem C7_counterexample :
    (TmuxTerminal.switch_to_session envAllOk false "" none).1 = true
    ∧ (TmuxTerminal.switch_to_session envAllOk false "" none).2 ≠ [] := by
  refine ⟨?_, ?_⟩ <;> decide

/-- C7 amended: the multiplexer driver's session_exists and
session_in_directory do reject the empty identifier before any external
call, but switch_to_session performs no such guard: its first external
call, the window-identifier query naming the empty pane target, is
issued for every oracle. -/
theorem C7_amended_empty_id (env : Oracle) (directory : String)
    (script : Option String) :
    TmuxTerminal.session_exists env "" = (false, [])
    ∧ TmuxTerminal.session_in_directory env "" directory = (false, [])
    ∧ (TmuxTerminal.switch_to_session env false "" script).2.head?
      = some (ExtCall.read ["tmux", "display-message", "-p", "-t", "", "-F",
          "#\x7bwindow_id\x7d"]) := by
  refine ⟨rfl, rfl, ?_⟩
  by_cases h1 : (env ["tmux", "display-message", "-p", "-t", "", "-F",
      "#\x7bwindow_id\x7d"]).returncode = 0 <;>
    by_cases h2 : (env ["tmux", "select-window", "-t",
        pyStrip ((env ["tmux", "display-message", "-p", "-t", "", "-F",
          "#\x7bwindow_id\x7d"]).stdout)]).returncode = 0 <;>
      by_cases h3 : (env ["tmux", "select-pane", "-t", ""]).returncode = 0 <;>
        by_cases hs : truthy script = true <;>
          simp [TmuxTerminal.switch_to_session, run_command_r, run_command_rw,
            h1, h2, h3, hs]

/-- C4 counterexample: the editor driver's open_new_window issues its
mutating launcher call unconditionally — the operation receives no
dry-run input at all (mirroring the source, where the call goes through
run_command with only a timeout, and VSCodeTerminal holds no dry-run
state) — so with dry-run active the call is still issued and the trace
is nonempty, refuting the claim that under dry-run every driver
operation across both drivers issues zero mutating external calls. -/
theorem C4_counterexample :
    VSCodeTerminal.open_new_window stC4 VSCodeVariant.vscode "/w" none
      = (true, [ExtCall.write ["code", "-n", "/w"]])
    ∧ (VSCodeTerminal.open_new_window stC4 VSCodeVariant.vscode "/w" none).2
      ≠ [] := by
  refine ⟨rfl, ?_⟩
  decide

/-- C4 amended: with dry-run active, every multiplexer-driver operation
issues zero mutating external calls; its mutating operations report
success whenever their read-only prerequisite succeeds (switch reports
the window query's success, run_in_active_session the presence of the
pane marker, and tab and window creation always report success); and
read-only queries still execute (the switch still issues its window
query, open_new_window with a script still issues its identifier query,
and the listing call is always issued). -/
theorem C4_amended_dry_run (env : Oracle)
    (session_id working_directory command : String)
    (script tmux_pane : Option String) :
    TmuxTerminal.switch_to_session env true session_id script
      = (((env ["tmux", "display-message", "-p", "-t", session_id, "-F",
           "#\x7bwindow_id\x7d"]).returncode == 0),
         [ExtCall.read ["tmux", "display-message", "-p", "-t", session_id,
           "-F", "#\x7bwindow_id\x7d"]])
    ∧ TmuxTerminal.open_new_tab env true working_directory script = (true, [])
    ∧ TmuxTerminal.open_new_window env true working_directory script
      = (true,
         if truthy script = true then
           [ExtCall.read ["tmux", "display-message", "-p", "-t",
             "#\x7bsession_id\x7d"]]
         else [])
    ∧ TmuxTerminal.run_in_active_session env true tmux_pane command
      = (truthy tmux_pane, [])
    ∧ (TmuxTerminal.list_sessions env).2
      = [ExtCall.read ["tmux", "list-panes", "-a", "-F",
          "#\x7bpane_id\x7d|#\x7bpane_current_path\x7d"]] := by
  refine ⟨?_, ?_, ?_, ?_, ?_⟩
  · by_cases h1 : (env ["tmux", "display-message", "-p", "-t", session_id,
        "-F", "#\x7bwindow_id\x7d"]).returncode = 0 <;>
      by_cases hs : truthy script = true <;>
        simp [TmuxTerminal.switch_to_session, run_command_r, run_command_rw,
          h1, hs]
  · by_cases hs : truthy script = true <;>
      simp [TmuxTerminal.open_new_tab, run_command_rw, hs]
  · by_cases hs : truthy script = true
    · by_cases hq : ((env ["tmux", "display-message", "-p", "-t",
          "#\x7bsession_id\x7d"]).returncode == 0
          && (env ["tmux", "display-message", "-p", "-t",
            "#\x7bsession_id\x7d"]).stdout != "") = true <;>
        simp [TmuxTerminal.open_new_window, run_command_r, run_command_rw,
          hs, hq]
    · simp [TmuxTerminal.open_new_window, run_command_r, run_command_rw, hs]
  · by_cases ht : truthy tmux_pane = true <;>
      simp [TmuxTerminal.run_in_active_session, run_command_rw, ht]
  · by_cases hc : ((env ["tmux", "list-panes", "-a", "-F",
        "#\x7bpane_id\x7d|#\x7bpane_current_path\x7d"]).returncode != 0
        || (env ["tmux", "list-panes", "-a", "-F",
          "#\x7bpane_id\x7d|#\x7bpane_current_path\x7d"]).stdout == "") = true <;>
      simp [TmuxTerminal.list_sessions, run_command_r, hc]
